import Mathlib

/-!
Verification development for the payments lookup-and-aggregation handler
(`netlify/functions/payments.js`).

The JavaScript source is shallowly embedded below:

* JavaScript numbers are modelled by `JSNum`: NaN, the two infinities, or an
  exact finite value (a rational).  IEEE-754 rounding and overflow are not
  modelled; all finite arithmetic is exact.
* Nullable JavaScript strings (CRM property values, query parameters) are
  modelled by `Option String`, with `none` standing for `null`/`undefined`
  or an absent property.
* The CRM HTTP API is modelled by an oracle structure `Crm`; an HTTP
  response with a non-success status (which makes `hubSpotFetch` throw) is
  an `Except.error` carrying the upstream status and body.
* The request handler is modelled as a pure function of the configuration
  token, the CRM oracle and the request URL, returning both the list of CRM
  calls it issued (in order) and either a response or a propagated upstream
  failure.
-/

/-- Model of JavaScript `String.prototype.split(",")` restricted to a
single-character separator, over the character list of the string: the
empty string splits to one empty part, and each separator character starts
a new part. -/
def splitOnChar (sep : Char) : List Char → List (List Char)
  | [] => [[]]
  | c :: rest =>
    let r := splitOnChar sep rest
    if c = sep then [] :: r
    else
      match r with
      | [] => [[c]]
      | g :: gs => (c :: g) :: gs

/-- Model of JavaScript `String.prototype.trim` over the character list of
the string: whitespace is removed from both ends. -/
def trimChars (l : List Char) : List Char :=
  ((l.dropWhile Char.isWhitespace).reverse.dropWhile Char.isWhitespace).reverse

/-- Model of a JavaScript number value as used by this program: NaN, one of
the two infinities, or a finite value.  Finite values are modelled as exact
rationals; IEEE-754 rounding and overflow are not modelled. -/
inductive JSNum where
  | nan : JSNum
  | posInf : JSNum
  | negInf : JSNum
  | fin : ℚ → JSNum
deriving DecidableEq, Repr

/-- The JavaScript global `isNaN` applied to a number value. -/
def JSNum.isNaN : JSNum → Bool
  | .nan => true
  | _ => false

/-- Finiteness of a JavaScript number (`Number.isFinite`). -/
def JSNum.isFiniteB : JSNum → Bool
  | .fin _ => true
  | _ => false

/-- Exact rational addition, phrased through `mkRat` so that the kernel can
evaluate it on closed inputs (`ratAdd_eq` identifies it with `+`). -/
def ratAdd (a b : ℚ) : ℚ := mkRat (a.num * b.den + b.num * a.den) (a.den * b.den)

theorem ratAdd_eq (a b : ℚ) : ratAdd a b = a + b := by
  rw [ratAdd, Rat.add_def, Rat.normalize_eq_mkRat]

/-- Exact rational negation, phrased through `mkRat` so that the kernel can
evaluate it on closed inputs (`ratNeg_eq` identifies it with unary minus). -/
def ratNeg (a : ℚ) : ℚ := mkRat (-a.num) a.den

theorem ratNeg_eq (a : ℚ) : ratNeg a = -a := by
  rw [ratNeg, ← Rat.neg_num, ← Rat.neg_den, Rat.mkRat_self]

/-- JavaScript unary minus on numbers. -/
def JSNum.neg : JSNum → JSNum
  | .nan => .nan
  | .posInf => .negInf
  | .negInf => .posInf
  | .fin q => .fin (ratNeg q)

/-- JavaScript `+` on numbers (exact on finite values; the IEEE special
cases for NaN and the infinities). -/
def JSNum.add : JSNum → JSNum → JSNum
  | .nan, _ => .nan
  | _, .nan => .nan
  | .posInf, .negInf => .nan
  | .negInf, .posInf => .nan
  | .posInf, _ => .posInf
  | _, .posInf => .posInf
  | .negInf, _ => .negInf
  | _, .negInf => .negInf
  | .fin a, .fin b => .fin (ratAdd a b)

/-- JavaScript `-` on numbers. -/
def JSNum.sub (a b : JSNum) : JSNum := a.add b.neg

/-- JavaScript truthiness of a number value: `NaN` and `0` are falsy,
every other number is truthy. -/
def JSNum.truthy : JSNum → Bool
  | .nan => false
  | .fin q => decide (q ≠ 0)
  | _ => true

/-- The expression `x || 0` on a JavaScript number `x`. -/
def JSNum.orZero (a : JSNum) : JSNum := if a.truthy then a else .fin 0

/-- Value of a hexadecimal digit character, if it is one. -/
def charHexDigit (c : Char) : Option Nat :=
  if '0' ≤ c ∧ c ≤ '9' then some (c.toNat - '0'.toNat)
  else if 'a' ≤ c ∧ c ≤ 'f' then some (c.toNat - 'a'.toNat + 10)
  else if 'A' ≤ c ∧ c ≤ 'F' then some (c.toNat - 'A'.toNat + 10)
  else none

/-- Value of a digit character in the given base, if it is a valid digit. -/
def digitVal (base : Nat) (c : Char) : Option Nat :=
  match charHexDigit c with
  | some d => if d < base then some d else none
  | none => none

/-- Accumulating parser for a digit string in the given base. -/
def natOfDigitsAux (base : Nat) : List Char → Nat → Option Nat
  | [], acc => some acc
  | c :: cs, acc =>
    match digitVal base c with
    | some d => natOfDigitsAux base cs (acc * base + d)
    | none => none

/-- Parses a non-empty all-digit string in the given base. -/
def natOfDigits (base : Nat) (cs : List Char) : Option Nat :=
  match cs with
  | [] => none
  | _ => natOfDigitsAux base cs 0

/-- Value of a list of decimal digit characters (0 for the empty list). -/
def natOfDigitList (cs : List Char) : Nat :=
  cs.foldl (fun a c => a * 10 + (c.toNat - '0'.toNat)) 0

/-- Parses an optionally signed decimal integer (exponent part). -/
def parseSignedInt : List Char → Option Int
  | '+' :: rest => (natOfDigits 10 rest).map (fun n => (n : Int))
  | '-' :: rest => (natOfDigits 10 rest).map (fun n => -(n : Int))
  | rest => (natOfDigits 10 rest).map (fun n => (n : Int))

/-- Parses an optional exponent part `e<int>`/`E<int>`; the empty remainder
means exponent 0, anything else is a parse failure. -/
def parseExpOpt : List Char → Option Int
  | [] => some 0
  | 'e' :: rest => parseSignedInt rest
  | 'E' :: rest => parseSignedInt rest
  | _ => none

/-- Exact value of a decimal literal `intPart.fracPart e exp`, computed as a
single exact fraction: the digit string is read as
`(intPart·10^|frac| + fracPart) / 10^|frac|` and scaled by `10^exp`. -/
def decValue (intPart fracPart : List Char) (e : Int) : ℚ :=
  let mant : Nat := natOfDigitList intPart * 10 ^ fracPart.length + natOfDigitList fracPart
  if 0 ≤ e then mkRat (mant * 10 ^ e.toNat) (10 ^ fracPart.length)
  else mkRat mant (10 ^ fracPart.length * 10 ^ (-e).toNat)

/-- Parses an unsigned decimal numeric literal (`DecimalDigits . DecimalDigits
Exponent`, each part optional as in ECMAScript), consuming the whole input. -/
def parseDecimal (cs : List Char) : Option ℚ :=
  let intPart := cs.takeWhile Char.isDigit
  let rest := cs.dropWhile Char.isDigit
  match rest with
  | '.' :: rest2 =>
    let fracPart := rest2.takeWhile Char.isDigit
    let rest3 := rest2.dropWhile Char.isDigit
    if intPart.isEmpty && fracPart.isEmpty then none
    else (parseExpOpt rest3).map (decValue intPart fracPart)
  | _ =>
    if intPart.isEmpty then none
    else (parseExpOpt rest).map (decValue intPart [])

/-- Parses an unsigned `StrNumericLiteral` body: the literal `Infinity` or a
decimal literal; anything else coerces to NaN. -/
def parseUnsigned (cs : List Char) : JSNum :=
  if cs = "Infinity".data then .posInf
  else
    match parseDecimal cs with
    | some q => .fin q
    | none => .nan

/-- Parses an optionally signed `StrNumericLiteral` body. -/
def parseSigned : List Char → JSNum
  | '+' :: rest => parseUnsigned rest
  | '-' :: rest => (parseUnsigned rest).neg
  | cs => parseUnsigned cs

/-- Parses the non-decimal integer literal forms `0x…`, `0o…`, `0b…`
(no sign allowed, per ECMAScript). -/
def parseRadix : List Char → Option JSNum
  | '0' :: c :: rest =>
    if c = 'x' ∨ c = 'X' then (natOfDigits 16 rest).map (fun n => JSNum.fin (mkRat n 1))
    else if c = 'o' ∨ c = 'O' then (natOfDigits 8 rest).map (fun n => JSNum.fin (mkRat n 1))
    else if c = 'b' ∨ c = 'B' then (natOfDigits 2 rest).map (fun n => JSNum.fin (mkRat n 1))
    else none
  | _ => none

/-- Model of the JavaScript `Number(string)` coercion (ECMAScript `ToNumber`
applied to a string), as invoked by `safeNumber`: surrounding whitespace is
trimmed, the empty remainder coerces to 0, `Infinity` forms and radix-prefixed
integers are recognised, decimal literals are taken at their exact rational
value, and everything else coerces to NaN. -/
def jsToNumber (s : String) : JSNum :=
  let cs := trimChars s.data
  if cs.isEmpty then .fin 0
  else
    match parseRadix cs with
    | some n => n
    | none => parseSigned cs

/-- Embedding of `safeNumber` (payments.js lines 602-606): `null`,
`undefined` and the empty string give NaN, otherwise the value is coerced
with `Number` and NaN is normalised to NaN. -/
def safeNumber : Option String → JSNum
  | none => .nan
  | some v =>
    if v = "" then .nan
    else
      let num := jsToNumber v
      if num.isNaN then .nan else num

/-- The deal property bag, restricted to the properties the program reads
(the fixed property set requested from the CRM plus the two stamped context
properties).  `none` models an absent/null property. -/
structure DealProperties where
  dealname : Option String
  amount : Option String
  total_amount_paid : Option String
  payment_1 : Option String
  payment_2 : Option String
  payment_3 : Option String
  payment_4 : Option String
  payment_5 : Option String
  email : Option String
  origin : Option String
deriving DecidableEq, Repr

/-- The empty property bag (`{}` after a spread of `undefined`). -/
def emptyDealProperties : DealProperties :=
  ⟨none, none, none, none, none, none, none, none, none, none⟩

/-- Replaces the `email` property (the mutation
`properties.email = contactEmailGlobal` in `getDealsForContact`). -/
def DealProperties.withEmail (p : DealProperties) (e : Option String) : DealProperties :=
  ⟨p.dealname, p.amount, p.total_amount_paid, p.payment_1, p.payment_2,
    p.payment_3, p.payment_4, p.payment_5, e, p.origin⟩

/-- Replaces the `email` and `origin` properties (the two stamping mutations
`deal.properties.email = email; deal.properties.origin = origin` in the
handler). -/
def DealProperties.withEmailOrigin (p : DealProperties) (e : Option String)
    (o : Option String) : DealProperties :=
  ⟨p.dealname, p.amount, p.total_amount_paid, p.payment_1, p.payment_2,
    p.payment_3, p.payment_4, p.payment_5, e, o⟩

/-- A parsed payment ledger entry (`{ amount, txn, date }` in
`renderDealPortal`). -/
structure Payment where
  amount : JSNum
  txn : String
  date : String
deriving DecidableEq, Repr

/-- The five payment installment fields, in the fixed order of the
`PAYMENT_FIELDS` array (payments.js lines 5-11), as accessors into the
property bag. -/
def PAYMENT_FIELDS : List (DealProperties → Option String) :=
  [DealProperties.payment_1, DealProperties.payment_2, DealProperties.payment_3,
    DealProperties.payment_4, DealProperties.payment_5]

/-- Embedding of the per-field parsing step of the `PAYMENT_FIELDS.forEach`
loop in `renderDealPortal` (payments.js lines 302-315): a falsy field is
skipped; otherwise the field is split on commas, every part is trimmed, a
falsy first part skips the entry, and the entry is kept exactly when
`safeNumber` of the first part is not NaN. -/
def parsePaymentField (raw : Option String) : Option Payment :=
  match raw with
  | none => none
  | some s =>
    if s = "" then none
    else
      let parts : List String := (splitOnChar ',' s.data).map (fun cs => ⟨trimChars cs⟩)
      let p0 := parts.headD ""
      if p0 = "" then none
      else
        let amount := safeNumber (some p0)
        let txn := parts.getD 1 ""
        let date := parts.getD 2 ""
        if amount.isNaN then none else some ⟨amount, txn, date⟩

/-- The `payments` array built by `renderDealPortal`: the five fields are
visited in `PAYMENT_FIELDS` order and each surviving entry is pushed. -/
def paymentsOf (p : DealProperties) : List Payment :=
  PAYMENT_FIELDS.filterMap (fun field => parsePaymentField (field p))

/-- The `programFee` value of `renderDealPortal` (line 298). -/
def programFeeOf (p : DealProperties) : JSNum := safeNumber p.amount

/-- The `totalPaid` value of `renderDealPortal` (lines 317-319): the
`total_amount_paid` field when it is not NaN, otherwise
`payments.reduce((sum, pay) => sum + (pay.amount || 0), 0)`. -/
def totalPaidOf (p : DealProperties) : JSNum :=
  let totalPaidFromField := safeNumber p.total_amount_paid
  if !totalPaidFromField.isNaN then totalPaidFromField
  else (paymentsOf p).foldl (fun sum pay => sum.add pay.amount.orZero) (.fin 0)

/-- The `remaining` value of `renderDealPortal` (lines 321-324). -/
def remainingOf (p : DealProperties) : JSNum :=
  if !(programFeeOf p).isNaN && !(totalPaidOf p).isNaN then
    (programFeeOf p).sub (totalPaidOf p)
  else .nan

/-- Decimal digit string of a natural number with `en-US` thousands
grouping, built from the reversed digit list. -/
def insertCommasAux : List Char → List Char
  | a :: b :: c :: d :: rest => a :: b :: c :: ',' :: insertCommasAux (d :: rest)
  | l => l

/-- Renders a natural number with `en-US` thousands separators. -/
def groupThousands (n : Nat) : String :=
  ⟨(insertCommasAux (toString n).data.reverse).reverse⟩

/-- Two-digit rendering of a value below 100. -/
def twoDigitStr (n : Nat) : String :=
  if n < 10 then "0" ++ toString n else toString n

/-- Fixed two-fraction-digit `en-US` rendering of an exact rational: the
number of cents is `|q|·100` rounded half away from zero (computed as
`⌊(200·|num| + den) / (2·den)⌋` in integer arithmetic). -/
def formatFixed2 (q : ℚ) : String :=
  let n := q.num.natAbs
  let d := q.den
  let cents : Nat := (200 * n + d) / (2 * d)
  let sign := if q.num < 0 then "-" else ""
  sign ++ groupThousands (cents / 100) ++ "." ++ twoDigitStr (cents % 100)

/-- Model of `num.toLocaleString("en-US", { minimumFractionDigits: 2,
maximumFractionDigits: 2 })`: the infinities render as the infinity sign,
finite values with grouping and exactly two fraction digits. -/
def localeString2 : JSNum → String
  | .nan => "NaN"
  | .posInf => "∞"
  | .negInf => "-∞"
  | .fin q => formatFixed2 q

/-- Embedding of `formatCurrency` (payments.js lines 608-614): NaN renders
as the em-dash placeholder, everything else as a dollar amount. -/
def formatCurrency (n : JSNum) : String :=
  if n.isNaN then "—" else "$" ++ localeString2 n

/-- Ledger-entry parsing as the (amended) specification sentence describes
it: split on commas, trim each part, drop the entry when the first part is
empty after trimming or when it coerces to NaN, and otherwise emit a
payment whose amount is the coerced first part, whose transaction id is the
second part or the empty string, and whose date is the third part or the
empty string. -/
def specParseEntry (raw : Option String) : Option Payment :=
  match raw with
  | none => none
  | some s =>
    if s = "" then none
    else
      match (splitOnChar ',' s.data).map (fun cs => (⟨trimChars cs⟩ : String)) with
      | [] => none
      | first :: rest =>
        if first = "" then none
        else if (jsToNumber first).isNaN then none
        else some ⟨jsToNumber first, rest.headD "", (rest.drop 1).headD ""⟩

/-- The ledger as the specification describes it: the five payment fields
visited in field order, each parsed by `specParseEntry`. -/
def specPaymentsOf (p : DealProperties) : List Payment :=
  [p.payment_1, p.payment_2, p.payment_3, p.payment_4, p.payment_5].filterMap specParseEntry

/-- The sum of the parsed payments' amounts, as the specification's
"sum `payments[].amount`" phrase describes it. -/
def specSumPayments (l : List Payment) : JSNum :=
  l.foldr (fun pay acc => pay.amount.add acc) (.fin 0)

theorem parsePaymentField_eq_spec (raw : Option String) :
    parsePaymentField raw = specParseEntry raw := by
  cases raw with
  | none => rfl
  | some s =>
    unfold parsePaymentField specParseEntry
    by_cases hs : s = ""
    · simp [hs]
    · simp only [hs, if_false]
      cases hp : (splitOnChar ',' s.data).map (fun cs => (⟨trimChars cs⟩ : String)) with
      | nil => simp
      | cons first rest =>
        simp only [List.headD_cons]
        by_cases h0 : first = ""
        · simp [h0]
        · simp only [h0, if_false, safeNumber]
          cases hn : (jsToNumber first).isNaN with
          | true => simp [hn, JSNum.isNaN]
          | false =>
            simp only [hn, Bool.false_eq_true, if_false]
            cases rest with
            | nil => simp [hn, List.getD]
            | cons b t =>
              cases t with
              | nil => simp [hn, List.getD]
              | cons c u => simp [hn, List.getD]

theorem specParseEntry_amount_not_nan (raw : Option String) (pay : Payment)
    (h : specParseEntry raw = some pay) : pay.amount.isNaN = false := by
  cases raw with
  | none => simp [specParseEntry] at h
  | some s =>
    unfold specParseEntry at h
    by_cases hs : s = ""
    · simp [hs] at h
    · simp only [hs, if_false] at h
      cases hp : (splitOnChar ',' s.data).map (fun cs => (⟨trimChars cs⟩ : String)) with
      | nil => rw [hp] at h; exact absurd h (by simp)
      | cons first rest =>
        rw [hp] at h
        by_cases h0 : first = ""
        · simp [h0] at h
        · simp only [h0, if_false] at h
          cases hn : (jsToNumber first).isNaN with
          | true => simp [hn] at h
          | false =>
            simp only [hn, Bool.false_eq_true, if_false, Option.some_inj] at h
            rw [← h]
            exact hn

theorem paymentsOf_amount_not_nan (p : DealProperties) (pay : Payment)
    (h : pay ∈ paymentsOf p) : pay.amount.isNaN = false := by
  unfold paymentsOf at h
  rw [List.mem_filterMap] at h
  obtain ⟨field, _, hf⟩ := h
  rw [parsePaymentField_eq_spec] at hf
  exact specParseEntry_amount_not_nan _ _ hf

theorem JSNum.orZero_of_not_nan (a : JSNum) (h : a.isNaN = false) : a.orZero = a := by
  cases a with
  | nan => simp [JSNum.isNaN] at h
  | posInf => rfl
  | negInf => rfl
  | fin q =>
    by_cases hq : q = 0
    · simp [JSNum.orZero, JSNum.truthy, hq]
    · simp [JSNum.orZero, JSNum.truthy, hq]

theorem JSNum.add_fin (a b : ℚ) : (JSNum.fin a).add (.fin b) = .fin (a + b) := by
  simp [JSNum.add, ratAdd_eq]

theorem JSNum.add_fin_zero (a : JSNum) : a.add (.fin 0) = a := by
  cases a <;> simp [JSNum.add, ratAdd_eq]

theorem JSNum.fin_zero_add (a : JSNum) : (JSNum.fin 0).add a = a := by
  cases a <;> simp [JSNum.add, ratAdd_eq]

theorem JSNum.addAssoc (a b c : JSNum) : (a.add b).add c = a.add (b.add c) := by
  cases a <;> cases b <;> cases c <;> simp [JSNum.add, ratAdd_eq, add_assoc]

theorem foldl_add_orZero_eq (l : List Payment) (hl : ∀ pay ∈ l, pay.amount.isNaN = false)
    (a : JSNum) :
    l.foldl (fun sum pay => sum.add pay.amount.orZero) a = a.add (specSumPayments l) := by
  induction l generalizing a with
  | nil => simp [specSumPayments, JSNum.add_fin_zero]
  | cons pay l ih =>
    have hpay : pay.amount.isNaN = false := hl pay (by simp)
    have hrest : ∀ q ∈ l, q.amount.isNaN = false := fun q hq => hl q (by simp [hq])
    simp only [List.foldl_cons, JSNum.orZero_of_not_nan _ hpay, ih hrest]
    show (a.add pay.amount).add (specSumPayments l) = a.add (specSumPayments (pay :: l))
    rw [JSNum.addAssoc]
    rfl

theorem dollar_ne_emdash (s : String) : "$" ++ s ≠ "—" := by
  cases s with
  | mk l =>
    intro h
    have hd : '$' :: l = ['—'] := congrArg String.data h
    simp at hd

/-- C1 (amended): for every deal the payment ledger visits the five payment
fields in fixed order `payment_1 … payment_5`; an absent or empty field is
skipped, otherwise the field is split on commas with each part trimmed, an
entry whose first part is empty after trimming or whose first part coerces
to NaN is silently dropped, and every surviving entry yields a Payment
whose amount is the coerced first part, whose transactionId is the second
part or the empty string, and whose date is the third part or the empty
string, in field order.  The two worked examples of the specification are
also checked. -/
theorem claim_C1 :
    (∀ p : DealProperties, paymentsOf p = specPaymentsOf p) ∧
    parsePaymentField (some "150.00, TXN123, 2024-01-05") =
      some ⟨JSNum.fin 150, "TXN123", "2024-01-05"⟩ ∧
    parsePaymentField (some ",TXN999,") = none := by
  refine ⟨?_, by decide, by decide⟩
  intro p
  simp [paymentsOf, specPaymentsOf, PAYMENT_FIELDS, parsePaymentField_eq_spec,
    List.filterMap_cons, List.filterMap_nil]

/-- C1 counterexample: the claim as frozen says an entry whose first part
does not coerce to a *finite* number is dropped, but the code only drops
NaN: the field `"Infinity,TX1,2024-01-01"` has a non-finite first part yet
produces a Payment with amount `+∞`, so the ledger is not empty. -/
theorem claim_C1_counterexample :
    (safeNumber (some "Infinity")).isFiniteB = false ∧
    paymentsOf ⟨none, none, none, some "Infinity,TX1,2024-01-01", none, none,
        none, none, none, none⟩ = [⟨JSNum.posInf, "TX1", "2024-01-01"⟩] :=
  ⟨by decide, by decide⟩

/-- C2 (amended): for every deal, `totalPaid` equals the total-paid-override
property whenever that property coerces to a number other than NaN, and
otherwise equals the sum of the parsed payments' amounts, which is 0 when
there are no payments. -/
theorem claim_C2 (p : DealProperties) :
    ((safeNumber p.total_amount_paid).isNaN = false →
      totalPaidOf p = safeNumber p.total_amount_paid) ∧
    ((safeNumber p.total_amount_paid).isNaN = true →
      totalPaidOf p = specSumPayments (paymentsOf p)) ∧
    ((safeNumber p.total_amount_paid).isNaN = true → paymentsOf p = [] →
      totalPaidOf p = .fin 0) := by
  refine ⟨fun h => by simp [totalPaidOf, h], fun h => ?_, fun h hnil => ?_⟩
  · simp only [totalPaidOf, h, Bool.not_true, Bool.false_eq_true, if_false]
    rw [foldl_add_orZero_eq (paymentsOf p) (paymentsOf_amount_not_nan p) (.fin 0)]
    exact JSNum.fin_zero_add _
  · simp only [totalPaidOf, h, Bool.not_true, Bool.false_eq_true, if_false, hnil]
    rfl

theorem claim_C2_witness :
    totalPaidOf ⟨none, none, none, some "100,A,d1", some "50,B,d2", none, none,
        none, none, none⟩ =
      specSumPayments (paymentsOf ⟨none, none, none, some "100,A,d1",
        some "50,B,d2", none, none, none, none, none⟩) :=
  (claim_C2 ⟨none, none, none, some "100,A,d1", some "50,B,d2", none, none,
    none, none, none⟩).2.1 (by decide)

/-- C2 counterexample: the claim as frozen says the override is used only
when it coerces to a *finite* number and that otherwise the payment sum
(here 0, no payments) is used; but with override `"Infinity"` the code
takes the non-finite override, so `totalPaid` is `+∞`, not 0. -/
theorem claim_C2_counterexample :
    (safeNumber (some "Infinity")).isFiniteB = false ∧
    paymentsOf ⟨none, none, some "Infinity", none, none, none, none, none,
        none, none⟩ = [] ∧
    totalPaidOf ⟨none, none, some "Infinity", none, none, none, none, none,
        none, none⟩ = JSNum.posInf ∧
    JSNum.posInf ≠ JSNum.fin 0 :=
  ⟨by decide, by decide, by decide, by decide⟩

/-- C3 (amended): for every deal the remaining balance equals
`programFee - totalPaid` (JavaScript subtraction) exactly when neither
`programFee` nor `totalPaid` is NaN — in particular it is the exact finite
difference when both are finite — and when either is NaN the remaining
balance is NaN and rendered as the em-dash placeholder; a non-NaN remaining
balance is never rendered as the em-dash. -/
theorem claim_C3 (p : DealProperties) :
    ((programFeeOf p).isNaN = false → (totalPaidOf p).isNaN = false →
      remainingOf p = (programFeeOf p).sub (totalPaidOf p)) ∧
    (∀ a b : ℚ, programFeeOf p = .fin a → totalPaidOf p = .fin b →
      remainingOf p = .fin (a - b)) ∧
    ((programFeeOf p).isNaN = true ∨ (totalPaidOf p).isNaN = true →
      remainingOf p = .nan ∧ formatCurrency (remainingOf p) = "—") ∧
    ((remainingOf p).isNaN = false → formatCurrency (remainingOf p) ≠ "—") := by
  refine ⟨fun h1 h2 => by simp [remainingOf, h1, h2], ?_, ?_, ?_⟩
  · intro a b ha hb
    simp [remainingOf, ha, hb, JSNum.isNaN, JSNum.sub, JSNum.neg, JSNum.add,
      ratAdd_eq, ratNeg_eq, sub_eq_add_neg]
  · intro h
    have hnan : remainingOf p = .nan := by
      rcases h with h | h <;> simp [remainingOf, h]
    exact ⟨hnan, by rw [hnan]; rfl⟩
  · intro h
    simp only [formatCurrency, h, Bool.false_eq_true, if_false]
    exact dollar_ne_emdash _

theorem claim_C3_witness :
    remainingOf ⟨none, some "1000", some "400", none, none, none, none, none,
        none, none⟩ = .fin (1000 - 400) :=
  (claim_C3 ⟨none, some "1000", some "400", none, none, none, none, none,
    none, none⟩).2.1 1000 400 (by decide) (by decide)

/-- C3 counterexample: the claim as frozen says the remaining balance is
computed only when both operands are *finite* and otherwise rendered as the
em-dash; but with fee `"Infinity"` (not finite, not NaN) and override
`"400"` the code computes `∞ - 400 = +∞` and renders `"$∞"`, not the
em-dash. -/
theorem claim_C3_counterexample :
    (programFeeOf ⟨none, some "Infinity", some "400", none, none, none, none,
        none, none, none⟩).isFiniteB = false ∧
    remainingOf ⟨none, some "Infinity", some "400", none, none, none, none,
        none, none, none⟩ = JSNum.posInf ∧
    formatCurrency (remainingOf ⟨none, some "Infinity", some "400", none, none,
        none, none, none, none, none⟩) = "$∞" ∧
    ("$∞" : String) ≠ "—" :=
  ⟨by decide, by decide, by decide, by decide⟩

/-- C4: for every deal, `programFee` is obtained by the `safeNumber`
coercion of the raw fee property, and whenever that property is missing
(absent or empty) or non-numeric the result is NaN — displayed as the
em-dash placeholder, never equal to any finite number (in particular not
zero), and forcing the remaining balance to NaN rather than being treated
as zero. -/
theorem claim_C4 (p : DealProperties) :
    programFeeOf p = safeNumber p.amount ∧
    ((p.amount = none ∨ p.amount = some "" ∨
        ∃ s, p.amount = some s ∧ (jsToNumber s).isNaN = true) →
      programFeeOf p = .nan ∧ formatCurrency (programFeeOf p) = "—" ∧
        (∀ q : ℚ, programFeeOf p ≠ .fin q) ∧ remainingOf p = .nan) := by
  refine ⟨rfl, ?_⟩
  intro h
  have hfee : programFeeOf p = .nan := by
    rcases h with h | h | ⟨s, hs, hn⟩
    · simp [programFeeOf, safeNumber, h]
    · simp [programFeeOf, safeNumber, h]
    · by_cases hse : s = ""
      · simp [programFeeOf, safeNumber, hs, hse]
      · simp [programFeeOf, safeNumber, hs, hse, hn]
  refine ⟨hfee, by rw [hfee]; rfl, ?_, by simp [remainingOf, hfee, JSNum.isNaN]⟩
  intro q hq
  rw [hfee] at hq
  simp at hq

theorem claim_C4_witness :
    programFeeOf ⟨none, some "abc", none, none, none, none, none, none, none,
        none⟩ = .nan ∧
    formatCurrency (programFeeOf ⟨none, some "abc", none, none, none, none,
        none, none, none, none⟩) = "—" := by
  have h := (claim_C4 ⟨none, some "abc", none, none, none, none, none, none,
    none, none⟩).2 (Or.inr (Or.inr ⟨"abc", rfl, by decide⟩))
  exact ⟨h.1, h.2.1⟩

/-- One `String.prototype.replace(/c/g, r)` step with a single-character
global pattern: every occurrence of the character is replaced by the
replacement text, all other characters are kept. -/
def replaceAllChar (c : Char) (r : List Char) (l : List Char) : List Char :=
  l.flatMap (fun x => if x = c then r else [x])

/-- Embedding of `escapeHtml` (payments.js lines 616-622): `String(str || "")`
maps `null`/`undefined`/the empty string to the empty string, then the four
global single-character replaces are applied in source order (`&` first,
then `<`, `>`, `"`). -/
def escapeHtml (v : Option String) : String :=
  let s := v.getD ""
  ⟨replaceAllChar '"' "&quot;".data
    (replaceAllChar '>' "&gt;".data
      (replaceAllChar '<' "&lt;".data
        (replaceAllChar '&' "&amp;".data s.data)))⟩

/-- Unreserved characters of `encodeURIComponent`. -/
def isUnreservedURI (c : Char) : Bool :=
  c.isAlphanum || c = '-' || c = '_' || c = '.' || c = '!' || c = '~' ||
    c = '*' || c.toNat = 39 || c = '(' || c = ')'

/-- UTF-8 bytes of a Unicode code point, as natural numbers. -/
def utf8Bytes (n : Nat) : List Nat :=
  if n < 128 then [n]
  else if n < 2048 then [192 + n / 64, 128 + n % 64]
  else if n < 65536 then [224 + n / 4096, 128 + (n / 64) % 64, 128 + n % 64]
  else [240 + n / 262144, 128 + (n / 4096) % 64, 128 + (n / 64) % 64, 128 + n % 64]

/-- Upper-case hexadecimal digit character. -/
def hexDigitChar (n : Nat) : Char :=
  if n < 10 then Char.ofNat ('0'.toNat + n) else Char.ofNat ('A'.toNat + n - 10)

/-- Percent-encoding of one byte. -/
def percentByte (b : Nat) : List Char :=
  ['%', hexDigitChar (b / 16), hexDigitChar (b % 16)]

/-- Model of JavaScript `encodeURIComponent`: unreserved characters are
kept, every other character is percent-encoded byte by byte. -/
def encodeURIComponent (s : String) : String :=
  ⟨s.data.flatMap (fun c =>
    if isUnreservedURI c then [c] else (utf8Bytes c.toNat).flatMap percentByte)⟩

/-- Characters that `URLSearchParams` serialisation keeps unescaped. -/
def isFormSafe (c : Char) : Bool :=
  c.isAlphanum || c = '*' || c = '-' || c = '.' || c = '_'

/-- Model of `URLSearchParams` (`application/x-www-form-urlencoded`)
serialisation of one component: space becomes `+`, safe characters are
kept, every other character is percent-encoded byte by byte. -/
def formEncode (s : String) : String :=
  ⟨s.data.flatMap (fun c =>
    if c = ' ' then ['+']
    else if isFormSafe c then [c]
    else (utf8Bytes c.toNat).flatMap percentByte)⟩

/-- Model of a WHATWG URL as used by the handler: the serialisation up to
the query string, plus the ordered search parameters. -/
structure Url where
  base : String
  params : List (String × String)
deriving DecidableEq, Repr

/-- `url.searchParams.get(k)`: the first value bound to the key, or null. -/
def Url.getParam (u : Url) (k : String) : Option String :=
  (u.params.find? (fun kv => kv.fst = k)).map (fun kv => kv.snd)

/-- `searchParams.set` on the parameter list: replaces every binding of the
key if present, otherwise appends the pair. -/
def setParamList (ps : List (String × String)) (k v : String) : List (String × String) :=
  if ps.any (fun kv => kv.fst = k) then
    ps.map (fun kv => if kv.fst = k then (k, v) else kv)
  else ps ++ [(k, v)]

/-- `url.searchParams.set(k, v)`. -/
def Url.setParam (u : Url) (k v : String) : Url := ⟨u.base, setParamList u.params k v⟩

/-- `url.toString()`: the base serialisation, plus the serialised query
when there are parameters. -/
def Url.render (u : Url) : String :=
  if u.params.isEmpty then u.base
  else
    u.base ++ "?" ++
      String.intercalate "&"
        (u.params.map (fun kv => formEncode kv.fst ++ "=" ++ formEncode kv.snd))

/-- JavaScript truthiness of a nullable string: `null`/`undefined` and the
empty string are falsy. -/
def truthyOpt : Option String → Bool
  | none => false
  | some s => s != ""
/-- Literal head chunk of the `stripeStylePage` template, up to the interpolated title. -/
def stripePageHead : String :=
  "<!DOCTYPE html>\n<html lang=\"en\">\n<head>\n  <meta charset=\"UTF-8\" />\n  <title>"

/-- Literal middle chunk of the `stripeStylePage` template, between the title and the inner HTML. -/
def stripePageMid : String :=
  "</title>\n  <meta name=\"viewport\" content=\"width=device-width, initial-scale=1\" />\n  <style>\n    :root \x7b\n      font-family: system-ui, -apple-system, BlinkMacSystemFont, \"SF Pro Text\",\n        \"Segoe UI\", sans-serif;\n      color: #0f172a;\n      background-color: #f8fafc;\n    \x7d\n    body \x7b\n      margin: 0;\n      background: radial-gradient(circle at top left, #eff6ff, #f9fafb);\n    \x7d\n    .container \x7b\n      max-width: 720px;\n      margin: 40px auto;\n      padding: 24px;\n      background: #ffffff;\n      border-radius: 16px;\n      box-shadow: 0 18px 45px rgba(15, 23, 42, 0.12);\n    \x7d\n\n    /* Breadcrumbs */\n    .breadcrumbs \x7b\n      font-size: 0.85rem;\n      margin-bottom: 16px;\n      color: #6b7280;\n      display: flex;\n      align-items: center;\n      gap: 6px;\n    \x7d\n    .breadcrumbs a \x7b\n      color: #4f46e5;\n      text-decoration: none;\n    \x7d\n    .breadcrumbs .current \x7b\n      color: #111827;\n      font-weight: 500;\n    \x7d\n\n    h1 \x7b\n      margin: 0 0 4px;\n      font-size: 1.5rem;\n      font-weight: 600;\n      color: #0f172a;\n    \x7d\n    h2 \x7b\n      font-size: 1.1rem;\n      margin: 0 0 12px;\n      font-weight: 600;\n      color: #111827;\n    \x7d\n    .subtitle \x7b\n      margin: 0 0 20px;\n      color: #6b7280;\n      font-size: 0.9rem;\n    \x7d\n    .summary-grid \x7b\n      display: grid;\n      grid-template-columns: repeat(auto-fit, minmax(160px, 1fr));\n      gap: 12px;\n      margin-bottom: 24px;\n    \x7d\n    .summary-card \x7b\n      padding: 14px 16px;\n      border-radius: 12px;\n      border: 1px solid #e5e7eb;\n      background: linear-gradient(to bottom right, #ffffff, #f9fafb);\n    \x7d\n    .summary-card.highlight \x7b\n      border-color: #4f46e5;\n      background: radial-gradient(circle at top left, #eef2ff, #f9fafb);\n    \x7d\n    .label \x7b\n      font-size: 0.75rem;\n      text-transform: uppercase;\n      letter-spacing: 0.08em;\n      color: #6b7280;\n      margin-bottom: 4px;\n    \x7d\n    .value \x7b\n      font-size: 1.1rem;\n      font-weight: 600;\n      color: #111827;\n    \x7d\n    .section \x7b\n      margin-top: 12px;\n    \x7d\n    .table-wrapper \x7b\n      border-radius: 12px;\n      border: 1px solid #e5e7eb;\n      overflow: hidden;\n      background: #ffffff;\n    \x7d\n    table \x7b\n      width: 100%;\n      border-collapse: collapse;\n      font-size: 0.9rem;\n    \x7d\n    thead \x7b\n      background: #f9fafb;\n    \x7d\n    th, td \x7b\n      padding: 10px 12px;\n      border-bottom: 1px solid #e5e7eb;\n      text-align: left;\n    \x7d\n    th \x7b\n      font-weight: 500;\n      color: #4b5563;\n      font-size: 0.8rem;\n      text-transform: uppercase;\n      letter-spacing: 0.06em;\n    \x7d\n    tbody tr:last-child td \x7b\n      border-bottom: none;\n    \x7d\n    .empty-row \x7b\n      text-align: center;\n      color: #9ca3af;\n      font-style: italic;\n    \x7d\n    .mono \x7b\n      font-family: ui-monospace, SFMono-Regular, Menlo, Monaco, Consolas,\n        \"Liberation Mono\", \"Courier New\", monospace;\n      font-size: 0.8rem;\n    \x7d\n    .program-grid \x7b\n      display: grid;\n      grid-template-columns: 1fr;\n      gap: 12px;\n      margin-top: 16px;\n    \x7d\n    .program-card \x7b\n      display: block;\n      padding: 14px 16px;\n      border-radius: 12px;\n      border: 1px solid #e5e7eb;\n      background: #ffffff;\n      text-decoration: none;\n      color: inherit;\n      transition: box-shadow 0.15s ease, transform 0.15s ease,\n        border-color 0.15s ease;\n    \x7d\n    .program-card:hover \x7b\n      transform: translateY(-1px);\n      border-color: #4f46e5;\n      box-shadow: 0 12px 24px rgba(15, 23, 42, 0.12);\n    \x7d\n    .program-name \x7b\n      font-weight: 600;\n      margin-bottom: 4px;\n    \x7d\n    .program-amount \x7b\n      font-size: 0.85rem;\n      color: #6b7280;\n      margin-bottom: 8px;\n    \x7d\n    .program-view \x7b\n      font-size: 0.8rem;\n      color: #4f46e5;\n      font-weight: 500;\n    \x7d\n    @media (max-width: 640px) \x7b\n      .container \x7b\n        margin: 16px;\n        padding: 18px;\n      \x7d\n    \x7d\n  </style>\n</head>\n<body>\n  "

/-- Literal tail chunk of the `stripeStylePage` template. -/
def stripePageTail : String :=
  "\n</body>\n</html>"

/-- Literal chunk 1 of the `renderDealPortal` body template. -/
def portalChunk1 : String :=
  "\n    <div class=\"container\">\n\n      "

/-- Literal chunk 2 of the `renderDealPortal` body template. -/
def portalChunk2 : String :=
  "\n\n      <h1>"

/-- Literal chunk 3 of the `renderDealPortal` body template. -/
def portalChunk3 : String :=
  "</h1>\n      <p class=\"subtitle\">Payment overview for your program.</p>\n\n      <div class=\"summary-grid\">\n        <div class=\"summary-card\">\n          <div class=\"label\">Program fee</div>\n          <div class=\"value\">"

/-- Literal chunk 4 of the `renderDealPortal` body template. -/
def portalChunk4 : String :=
  "</div>\n        </div>\n        <div class=\"summary-card\">\n          <div class=\"label\">Paid so far</div>\n          <div class=\"value\">"

/-- Literal chunk 5 of the `renderDealPortal` body template. -/
def portalChunk5 : String :=
  "</div>\n        </div>\n        <div class=\"summary-card highlight\">\n          <div class=\"label\">Remaining balance</div>\n          <div class=\"value\">"

/-- Literal chunk 6 of the `renderDealPortal` body template. -/
def portalChunk6 : String :=
  "</div>\n        </div>\n      </div>\n\n      <div class=\"section\">\n        <h2>Payment history</h2>\n        <div class=\"table-wrapper\">\n          <table>\n            <thead>\n              <tr>\n                <th>Amount</th>\n                <th>Date</th>\n                <th>Transaction ID</th>\n              </tr>\n            </thead>\n            <tbody>\n              "

/-- Literal chunk 7 of the `renderDealPortal` body template. -/
def portalChunk7 : String :=
  "\n            </tbody>\n          </table>\n        </div>\n      </div>\n    </div>\n  "

/-- Literal chunk 1 of the payment-row template in `renderDealPortal`. -/
def payRowChunk1 : String :=
  "\n        <tr>\n          <td>"

/-- Literal chunk 2 of the payment-row template in `renderDealPortal`. -/
def payRowChunk2 : String :=
  "</td>\n          <td>"

/-- Literal chunk 3 of the payment-row template in `renderDealPortal`. -/
def payRowChunk3 : String :=
  "</td>\n          <td class=\"mono\">"

/-- Literal chunk 4 of the payment-row template in `renderDealPortal`. -/
def payRowChunk4 : String :=
  "</td>\n        </tr>\n      "

/-- The no-payments placeholder row of `renderDealPortal`. -/
def emptyRowHtml : String :=
  "<tr><td colspan=\"3\" class=\"empty-row\">No payments have been recorded yet.</td></tr>"

/-- Literal chunk 1 of the program-card template in `renderDealSelectionPage`. -/
def cardChunk1 : String :=
  "\n      <a href=\""

/-- Literal chunk 2 of the program-card template in `renderDealSelectionPage`. -/
def cardChunk2 : String :=
  "\" class=\"program-card\">\n        <div class=\"program-name\">"

/-- Literal chunk 3 of the program-card template in `renderDealSelectionPage`. -/
def cardChunk3 : String :=
  "</div>\n        "

/-- Literal chunk 4 of the program-card template in `renderDealSelectionPage`. -/
def cardChunk4 : String :=
  "\n        <div class=\"program-view\">View payments →</div>\n      </a>\n    "

/-- Literal chunk 1 of the `renderDealSelectionPage` body template. -/
def selChunk1 : String :=
  "\n    <div class=\"container\">\n      "

/-- Literal chunk 2 of the `renderDealSelectionPage` body template. -/
def selChunk2 : String :=
  "\n\n      <h1>Select your program</h1>\n      <p>We found more than one active program associated with your account. Please choose which one you’d like to view.</p>\n\n      <div class=\"program-grid\">\n        "

/-- Literal chunk 3 of the `renderDealSelectionPage` body template. -/
def selChunk3 : String :=
  "\n      </div>\n    </div>\n  "

/-- Literal chunk 1 of the `renderBreadcrumbs` template. -/
def crumbChunk1 : String :=
  "\n    <nav class=\"breadcrumbs\">\n      <a href=\""

/-- Literal chunk 2 of the `renderBreadcrumbs` template. -/
def crumbChunk2 : String :=
  "\">Home</a>\n      "

/-- Literal chunk 3 of the `renderBreadcrumbs` template. -/
def crumbChunk3 : String :=
  "\n      <span>/</span> <span class=\"current\">Payment Summary</span>\n    </nav>\n  "

/-- A domain deal record as the handler manipulates it: the CRM id plus
the property bag. -/
structure Deal where
  id : String
  properties : DealProperties
deriving DecidableEq, Repr

/-- Embedding of `renderBreadcrumbs` (payments.js lines 208-234): the home
link is the origin when one was supplied, otherwise a self-link carrying the
email; the optional selection link carries email and origin. -/
def renderBreadcrumbs (email : String) (origin : String) (showSelection : Bool) : String :=
  let base := "/.netlify/functions/payments"
  let homeUrl := if origin != "" then origin else base ++ "?email=" ++ encodeURIComponent email
  let selectUrl := base ++ "?email=" ++ encodeURIComponent email ++
    (if origin != "" then "&origin=" ++ encodeURIComponent origin else "")
  crumbChunk1 ++ homeUrl ++ crumbChunk2 ++
    (if showSelection then
      " <span>/</span> <a href=\"" ++ selectUrl ++ "\">Select Program</a>"
    else "") ++ crumbChunk3

/-- Embedding of `stripeStylePage` (payments.js lines 397-577): the fixed
document shell around the escaped title and the inner HTML. -/
def stripeStylePage (title : String) (innerHtml : String) : String :=
  stripePageHead ++ escapeHtml (some title) ++ stripePageMid ++ innerHtml ++ stripePageTail

/-- Embedding of `basicPage` (payments.js lines 579-584). -/
def basicPage (title : String) (contentHtml : String) : String :=
  stripeStylePage title
    ("<div class=\"container\"><h1>" ++ escapeHtml (some title) ++ "</h1>" ++
      contentHtml ++ "</div>")

/-- One row of the payment-history table in `renderDealPortal`; the source
passes `pay.date || ""` and `pay.txn || ""`, which on strings is the
identity (the empty string maps to itself). -/
def paymentRow (pay : Payment) : String :=
  payRowChunk1 ++ formatCurrency pay.amount ++ payRowChunk2 ++
    escapeHtml (some pay.date) ++ payRowChunk3 ++ escapeHtml (some pay.txn) ++
    payRowChunk4

/-- Embedding of `renderDealPortal` (payments.js lines 294-393): the ledger
quantities are computed by `programFeeOf`/`totalPaidOf`/`remainingOf` and
`paymentsOf` exactly as in the source, then interpolated into the portal
body template. -/
def renderDealPortal (deal : Deal) : String :=
  let p := deal.properties
  let programName :=
    match p.dealname with
    | some s => if s != "" then s else "Your Program"
    | none => "Your Program"
  let payments := paymentsOf p
  let feeStr := formatCurrency (programFeeOf p)
  let paidStr := formatCurrency (totalPaidOf p)
  let remainingStr := formatCurrency (remainingOf p)
  let paymentRows :=
    if payments.length > 0 then String.join (payments.map paymentRow)
    else emptyRowHtml
  let body :=
    portalChunk1 ++ renderBreadcrumbs (p.email.getD "") (p.origin.getD "") true ++
    portalChunk2 ++ escapeHtml (some programName) ++
    portalChunk3 ++ feeStr ++ portalChunk4 ++ paidStr ++ portalChunk5 ++
    remainingStr ++ portalChunk6 ++ paymentRows ++ portalChunk7
  stripeStylePage "Payment Summary" body

/-- One program card of `renderDealSelectionPage`: the self-link carries
`dealId`, `email` (the stamped property or the empty string) and, when
supplied, `origin`. -/
def dealCard (baseUrl : Url) (origin : String) (deal : Deal) : String :=
  let p := deal.properties
  let name :=
    match p.dealname with
    | some s => if s != "" then s else "Program"
    | none => "Program"
  let amount := safeNumber p.amount
  let amountStr := if amount.isNaN then "" else "$" ++ localeString2 amount
  let link0 := (baseUrl.setParam "dealId" deal.id).setParam "email" (p.email.getD "")
  let link := if origin != "" then link0.setParam "origin" origin else link0
  cardChunk1 ++ link.render ++ cardChunk2 ++ escapeHtml (some name) ++
    cardChunk3 ++
    (if amountStr != "" then
      "<div class=\"program-amount\">Program fee: " ++ amountStr ++ "</div>"
    else "") ++ cardChunk4

/-- Embedding of `renderDealSelectionPage` (payments.js lines 238-292): the
request URL with its query cleared is the card link base, and the cards are
emitted in deal-list order. -/
def renderDealSelectionPage (deals : List Deal) (currentUrl : Url) (origin : String) : String :=
  let baseUrl : Url := ⟨currentUrl.base, []⟩
  let cards := String.join (deals.map (dealCard baseUrl origin))
  let firstEmail :=
    match deals with
    | [] => ""
    | d :: _ => d.properties.email.getD ""
  stripeStylePage "Select a Program"
    (selChunk1 ++ renderBreadcrumbs firstEmail origin false ++ selChunk2 ++
      cards ++ selChunk3)

/-- An upstream HTTP failure: `hubSpotFetch` (payments.js lines 106-123)
throws when the CRM responds with a non-success status, after logging the
status and response body; the two are carried here so that theorems can
state that they never reach the caller. -/
structure HttpFailure where
  status : Nat
  body : String
deriving DecidableEq, Repr

/-- One contact record of the contact-search response (`data.results[i]`):
an id and a possibly absent property object (modelled as a key-value
list). -/
structure RawContact where
  id : String
  properties : Option (List (String × String))
deriving DecidableEq, Repr

/-- The contact as `findContactByEmail` returns it. -/
structure CrmContact where
  id : String
  properties : List (String × String)
deriving DecidableEq, Repr

/-- One deal record of the batch-read response (`batch.results[i]`): per
the CRM interface contract every batch result carries a string id; the
property object may be absent. -/
structure RawDeal where
  id : String
  properties : Option DealProperties
deriving DecidableEq, Repr

/-- The single-deal read response body: the whole body may be null, and
`getDealById` checks `data.id` for truthiness, so the id is kept
nullable here. -/
structure RawSingleDeal where
  id : Option String
  properties : Option DealProperties
deriving DecidableEq, Repr

/-- Oracle for the CRM HTTP API: one field per endpoint the program calls.
`Except.error` models a non-success HTTP status (which makes
`hubSpotFetch` throw); `Except.ok` carries the parsed JSON body, with an
`Option` layer for a possibly absent `results` field (or a null body for
the single-deal read). -/
structure Crm where
  searchContacts : String → Except HttpFailure (Option (List RawContact))
  contactDealAssociations : String → Except HttpFailure (Option (List (Option String)))
  batchReadDeals : List String → Except HttpFailure (Option (List RawDeal))
  readDeal : String → Except HttpFailure (Option RawSingleDeal)

/-- A network call issued against the CRM, used to express call-order and
no-call-before properties. -/
inductive CrmCall where
  | contactSearch : String → CrmCall
  | assocDeals : String → CrmCall
  | batchDeals : List String → CrmCall
  | dealRead : String → CrmCall
deriving DecidableEq, Repr

/-- Embedding of `findContactByEmail` (payments.js lines 125-153): an
absent or empty `results` list is the not-found outcome, otherwise the
first result is returned with its property object defaulted to `{}`. -/
def findContactByEmail (crm : Crm) (email : String) :
    Except HttpFailure (Option CrmContact) :=
  match crm.searchContacts email with
  | .error f => .error f
  | .ok none => .ok none
  | .ok (some []) => .ok none
  | .ok (some (c :: _)) => .ok (some ⟨c.id, c.properties.getD []⟩)

/-- The deal-id extraction of `getDealsForContact` (payments.js lines
160-161): `results?.map(r => r.toObjectId).filter(Boolean) || []` — absent
`results` gives the empty list, and falsy ids (absent or empty) are
dropped. -/
def dealIdsFromAssoc (results : Option (List (Option String))) : List String :=
  ((results.getD []).filterMap (fun o => o)).filter (fun s => s != "")

/-- Embedding of `getDealsForContact` (payments.js lines 155-190), paired
with the CRM calls it issues in order: the association list is fetched
first; when no valid deal id remains the empty list is returned without a
batch call; otherwise the batch read is issued and every result is mapped
to a `Deal` whose properties are the spread of the raw properties with
`email` overwritten by the module-global contact email (set from the
request's `email` parameter at the top of the handler; the handler is
single-threaded per request, so within one request the global equals that
parameter). -/
def getDealsForContact (crm : Crm) (contactEmailGlobal : Option String)
    (contactId : String) : List CrmCall × Except HttpFailure (List Deal) :=
  match crm.contactDealAssociations contactId with
  | .error f => ([.assocDeals contactId], .error f)
  | .ok assocResults =>
    let dealIds := dealIdsFromAssoc assocResults
    if dealIds.isEmpty then ([.assocDeals contactId], .ok [])
    else
      match crm.batchReadDeals dealIds with
      | .error f => ([.assocDeals contactId, .batchDeals dealIds], .error f)
      | .ok batchResults =>
        ([.assocDeals contactId, .batchDeals dealIds],
          .ok ((batchResults.getD []).map (fun d =>
            ⟨d.id, (d.properties.getD emptyDealProperties).withEmail contactEmailGlobal⟩)))

/-- Embedding of `getDealById` (payments.js lines 192-204): a null body or
a falsy id is the not-found outcome; otherwise the deal is returned with
its property object defaulted to `{}`. -/
def getDealById (crm : Crm) (dealId : String) : Except HttpFailure (Option Deal) :=
  match crm.readDeal dealId with
  | .error f => .error f
  | .ok none => .ok none
  | .ok (some d) =>
    match d.id with
    | none => .ok none
    | some i => if i = "" then .ok none else .ok (some ⟨i, d.properties.getD emptyDealProperties⟩)

/-- The hosting platform's response value. -/
structure Response where
  statusCode : Nat
  contentType : String
  body : String
deriving DecidableEq, Repr

/-- Embedding of `textResponse` (payments.js lines 594-600). -/
def textResponse (statusCode : Nat) (text : String) : Response :=
  ⟨statusCode, "text/plain; charset=utf-8", text⟩

/-- Embedding of `htmlResponse` (payments.js lines 586-592). -/
def htmlResponse (statusCode : Nat) (html : String) : Response :=
  ⟨statusCode, "text/html; charset=utf-8", html⟩

/-- The configuration-error message of the handler (payments.js lines
24-29). -/
def tokenMissingMsg : String :=
  "HubSpot token not configured. Please set HUBSPOT_PRIVATE_APP_TOKEN in Netlify."

/-- The missing-email page body (payments.js lines 47-55). -/
def missingEmailBody : String :=
  "<p>Please access this page via the portal form so we know which account to look up.</p>"

/-- The no-account page body (payments.js lines 59-69), echoing the escaped
email. -/
def noAccountBody (email : String) : String :=
  "<p>We couldn\x27t find any records for <strong>" ++ escapeHtml (some email) ++
    "</strong>. Please double-check your email or contact our office.</p>"

/-- The no-programs page body (payments.js lines 74-84), echoing the
escaped email. -/
def noProgramsBody (email : String) : String :=
  "<p>We found your contact (<strong>" ++ escapeHtml (some email) ++
    "</strong>) but there are no associated program payment records yet.</p>"

/-- Embedding of the body of `exports.handler` (payments.js lines 15-97)
before the surrounding `try`/`catch`: given the configuration token, the
CRM oracle and the request URL it returns the ordered list of CRM calls
issued together with either the response or the first upstream failure.
The module-global `contactEmailGlobal` is set to the request's `email`
parameter at entry (line 22) and is the value stamped onto batch-read
deals. -/
def handlerRun (token : Option String) (crm : Crm) (url : Url) :
    List CrmCall × Except HttpFailure Response :=
  let email := url.getParam "email"
  let dealId := url.getParam "dealId"
  let origin := (url.getParam "origin").getD ""
  let contactEmailGlobal := email
  if truthyOpt token = false then
    ([], .ok (textResponse 500 tokenMissingMsg))
  else if truthyOpt dealId then
    let did := dealId.getD ""
    match getDealById crm did with
    | .error f => ([.dealRead did], .error f)
    | .ok none => ([.dealRead did], .ok (textResponse 404 "Could not find that program / deal."))
    | .ok (some deal) =>
      let stamped : Deal := ⟨deal.id, deal.properties.withEmailOrigin email (some origin)⟩
      ([.dealRead did], .ok (htmlResponse 200 (renderDealPortal stamped)))
  else if truthyOpt email = false then
    ([], .ok (htmlResponse 400 (basicPage "Missing email" missingEmailBody)))
  else
    let em := email.getD ""
    match findContactByEmail crm em with
    | .error f => ([.contactSearch em], .error f)
    | .ok none =>
      ([.contactSearch em],
        .ok (htmlResponse 404 (basicPage "No account found" (noAccountBody em))))
    | .ok (some contact) =>
      let r := getDealsForContact crm contactEmailGlobal contact.id
      let calls := .contactSearch em :: r.fst
      match r.snd with
      | .error f => (calls, .error f)
      | .ok deals =>
        if deals.length = 0 then
          (calls, .ok (htmlResponse 404 (basicPage "No programs found" (noProgramsBody em))))
        else if deals.length = 1 then
          let deal := deals.headD ⟨"", emptyDealProperties⟩
          let stamped : Deal := ⟨deal.id, deal.properties.withEmailOrigin email (some origin)⟩
          (calls, .ok (htmlResponse 200 (renderDealPortal stamped)))
        else
          (calls, .ok (htmlResponse 200 (renderDealSelectionPage deals url origin)))

/-- Embedding of `exports.handler` including its `try`/`catch` (payments.js
lines 15-102): any propagated exception — in this model, an upstream
non-success response — is logged and converted to the fixed plain-text
500 response. -/
def handler (token : Option String) (crm : Crm) (url : Url) : Response :=
  match (handlerRun token crm url).snd with
  | .ok r => r
  | .error _ => textResponse 500 "Unexpected error"

/-- C5: for every request, if the CRM bearer credential is absent from the
configuration (falsy token), the handler returns the 500 plain-text
configuration-error response with an empty CRM call trace — i.e. before any
network call — and its body is the specific configuration message, distinct
from the generic upstream-failure body `"Unexpected error"`. -/
theorem claim_C5 (token : Option String) (crm : Crm) (url : Url)
    (h : truthyOpt token = false) :
    handlerRun token crm url = ([], .ok (textResponse 500 tokenMissingMsg)) ∧
    handler token crm url = textResponse 500 tokenMissingMsg ∧
    (handler token crm url).contentType = "text/plain; charset=utf-8" ∧
    (handler token crm url).body ≠ "Unexpected error" := by
  have h1 : handlerRun token crm url = ([], .ok (textResponse 500 tokenMissingMsg)) := by
    simp [handlerRun, h]
  have h2 : handler token crm url = textResponse 500 tokenMissingMsg := by
    simp [handler, h1]
  refine ⟨h1, h2, by rw [h2]; rfl, by rw [h2]; decide⟩

def crmWitness : Crm :=
  ⟨fun _ => .ok (some []), fun _ => .ok (some []), fun _ => .ok (some []),
    fun _ => .ok none⟩

theorem claim_C5_witness :
    handler none crmWitness ⟨"https://example.test/.netlify/functions/payments", []⟩ =
      textResponse 500 tokenMissingMsg :=
  (claim_C5 none crmWitness ⟨"https://example.test/.netlify/functions/payments", []⟩
    (by decide)).2.1

/-- C6: for every request during which the CRM responds with a non-success
status on some call (the run propagates an `HttpFailure`), the handler
returns a 500 plain-text response whose body is exactly the fixed string
`"Unexpected error"`, independent of the upstream status and body, so
neither is ever echoed to the caller. -/
theorem claim_C6 (token : Option String) (crm : Crm) (url : Url)
    (trace : List CrmCall) (f : HttpFailure)
    (h : handlerRun token crm url = (trace, .error f)) :
    handler token crm url = textResponse 500 "Unexpected error" ∧
    (handler token crm url).statusCode = 500 ∧
    (handler token crm url).contentType = "text/plain; charset=utf-8" ∧
    (handler token crm url).body = "Unexpected error" := by
  have hh : handler token crm url = textResponse 500 "Unexpected error" := by
    simp [handler, h]
  exact ⟨hh, by rw [hh]; rfl, by rw [hh]; rfl, by rw [hh]; rfl⟩

def crmFailing : Crm :=
  ⟨fun _ => .error ⟨503, "upstream boom"⟩, fun _ => .error ⟨503, "upstream boom"⟩,
    fun _ => .error ⟨503, "upstream boom"⟩, fun _ => .error ⟨503, "upstream boom"⟩⟩

theorem claim_C6_witness :
    handler (some "tok") crmFailing ⟨"https://example.test/x", [("dealId", "D1")]⟩ =
      textResponse 500 "Unexpected error" :=
  (claim_C6 (some "tok") crmFailing ⟨"https://example.test/x", [("dealId", "D1")]⟩
    [.dealRead "D1"] ⟨503, "upstream boom"⟩ rfl).1

/-- C7: for every request in which `dealId` is supplied (truthy), the
handler issues exactly the one single-deal read — never an email-based
contact search, even when `email` is also supplied; a not-found deal gives
the 404 plain-text response, and a found deal gives status 200 with the
portal rendered for the deal stamped with the caller's `email` and `origin`
query parameters, unconditionally. -/
theorem claim_C7 (token : Option String) (crm : Crm) (url : Url) (dl : Option Deal)
    (htok : truthyOpt token = true)
    (hdid : truthyOpt (url.getParam "dealId") = true)
    (hget : getDealById crm ((url.getParam "dealId").getD "") = .ok dl) :
    (handlerRun token crm url).fst = [.dealRead ((url.getParam "dealId").getD "")] ∧
    (dl = none →
      handler token crm url = textResponse 404 "Could not find that program / deal.") ∧
    (∀ d, dl = some d →
      handler token crm url = htmlResponse 200 (renderDealPortal
        ⟨d.id, d.properties.withEmailOrigin (url.getParam "email")
          (some ((url.getParam "origin").getD ""))⟩)) := by
  cases dl with
  | none =>
    have h1 : handlerRun token crm url =
        ([.dealRead ((url.getParam "dealId").getD "")],
          .ok (textResponse 404 "Could not find that program / deal.")) := by
      simp [handlerRun, htok, hdid, hget]
    exact ⟨by rw [h1], fun _ => by simp [handler, h1], fun d hd => absurd hd (by simp)⟩
  | some d =>
    have h1 : handlerRun token crm url =
        ([.dealRead ((url.getParam "dealId").getD "")],
          .ok (htmlResponse 200 (renderDealPortal
            ⟨d.id, d.properties.withEmailOrigin (url.getParam "email")
              (some ((url.getParam "origin").getD ""))⟩))) := by
      simp [handlerRun, htok, hdid, hget]
    refine ⟨by rw [h1], fun hc => absurd hc (by simp), fun d2 hd2 => ?_⟩
    obtain rfl : d = d2 := Option.some.inj hd2
    simp [handler, h1]

def crmOneDeal : Crm :=
  ⟨fun _ => .ok (some []), fun _ => .ok (some []), fun _ => .ok (some []),
    fun _ => .ok (some ⟨some "D1", some ⟨some "Course", some "1000", none,
      some "250,T1,2024-01-02", none, none, none, none, none, none⟩⟩)⟩

theorem claim_C7_witness :
    handler (some "tok") crmOneDeal
        ⟨"https://example.test/x", [("dealId", "D1"), ("email", "me@example.test")]⟩ =
      htmlResponse 200 (renderDealPortal
        ⟨"D1", DealProperties.withEmailOrigin
          ⟨some "Course", some "1000", none, some "250,T1,2024-01-02", none, none,
            none, none, none, none⟩
          (some "me@example.test") (some "")⟩) := by
  have h := (claim_C7 (some "tok") crmOneDeal
      ⟨"https://example.test/x", [("dealId", "D1"), ("email", "me@example.test")]⟩
      (some ⟨"D1", ⟨some "Course", some "1000", none, some "250,T1,2024-01-02",
        none, none, none, none, none, none⟩⟩)
      (by decide) (by decide) rfl).2.2
    ⟨"D1", ⟨some "Course", some "1000", none, some "250,T1,2024-01-02", none,
      none, none, none, none, none⟩⟩ rfl
  exact h

/-- C8: for every request without a truthy `dealId`: absent `email` yields
the 400 missing-email HTML page with an empty CRM call trace (before any
network call); a contact lookup that finds no contact yields the 404
no-account HTML page whose body echoes the escaped email; a contact whose
deal-association list yields no valid deal id yields the 404 no-programs
HTML page echoing the escaped email, with no batch call issued — each
outcome is an ordinary `.ok` HTML response, not a propagated exception. -/
theorem claim_C8 (token : Option String) (crm : Crm) (url : Url)
    (htok : truthyOpt token = true)
    (hdid : truthyOpt (url.getParam "dealId") = false) :
    (truthyOpt (url.getParam "email") = false →
      handlerRun token crm url =
        ([], .ok (htmlResponse 400 (basicPage "Missing email" missingEmailBody))) ∧
      handler token crm url = htmlResponse 400 (basicPage "Missing email" missingEmailBody)) ∧
    (∀ em, url.getParam "email" = some em → truthyOpt (url.getParam "email") = true →
      findContactByEmail crm em = .ok none →
      handlerRun token crm url =
        ([.contactSearch em],
          .ok (htmlResponse 404 (basicPage "No account found" (noAccountBody em)))) ∧
      handler token crm url = htmlResponse 404 (basicPage "No account found" (noAccountBody em))) ∧
    (∀ em c assoc, url.getParam "email" = some em →
      truthyOpt (url.getParam "email") = true →
      findContactByEmail crm em = .ok (some c) →
      crm.contactDealAssociations c.id = .ok assoc →
      dealIdsFromAssoc assoc = [] →
      handlerRun token crm url =
        ([.contactSearch em, .assocDeals c.id],
          .ok (htmlResponse 404 (basicPage "No programs found" (noProgramsBody em)))) ∧
      handler token crm url = htmlResponse 404 (basicPage "No programs found" (noProgramsBody em))) := by
  refine ⟨?_, ?_, ?_⟩
  · intro hem
    have h1 : handlerRun token crm url =
        ([], .ok (htmlResponse 400 (basicPage "Missing email" missingEmailBody))) := by
      simp [handlerRun, htok, hdid, hem]
    exact ⟨h1, by simp [handler, h1]⟩
  · intro em hemail ht hfind
    have ht2 : truthyOpt (some em) = true := by rw [← hemail]; exact ht
    have h1 : handlerRun token crm url =
        ([.contactSearch em],
          .ok (htmlResponse 404 (basicPage "No account found" (noAccountBody em)))) := by
      simp [handlerRun, htok, hdid, hemail, ht2, hfind]
    exact ⟨h1, by simp [handler, h1]⟩
  · intro em c assoc hemail ht hfind hassoc hids
    have ht2 : truthyOpt (some em) = true := by rw [← hemail]; exact ht
    have hne : dealIdsFromAssoc assoc = [] := hids
    have h1 : handlerRun token crm url =
        ([.contactSearch em, .assocDeals c.id],
          .ok (htmlResponse 404 (basicPage "No programs found" (noProgramsBody em)))) := by
      simp [handlerRun, getDealsForContact, htok, hdid, hemail, ht2, hfind, hassoc, hne]
    exact ⟨h1, by simp [handler, h1]⟩

/-- C9: for every email-resolved contact, every deal produced by the batch
fetch is stamped with the resolving email; when the batch fetch produces
exactly one deal the outcome is the 200 portal page for that deal, and when
it produces two or more the outcome is the 200 selection page containing
all of those deals in the order returned by the batch fetch. -/
theorem claim_C9 (token : Option String) (crm : Crm) (url : Url)
    (em : String) (c : CrmContact) (assoc : Option (List (Option String)))
    (batch : Option (List RawDeal))
    (htok : truthyOpt token = true)
    (hdid : truthyOpt (url.getParam "dealId") = false)
    (hemail : url.getParam "email" = some em)
    (ht : truthyOpt (url.getParam "email") = true)
    (hfind : findContactByEmail crm em = .ok (some c))
    (hassoc : crm.contactDealAssociations c.id = .ok assoc)
    (hids : dealIdsFromAssoc assoc ≠ [])
    (hbatch : crm.batchReadDeals (dealIdsFromAssoc assoc) = .ok batch) :
    (∀ d ∈ (batch.getD []).map (fun d =>
        (⟨d.id, (d.properties.getD emptyDealProperties).withEmail (some em)⟩ : Deal)),
      d.properties.email = some em) ∧
    (∀ d0, (batch.getD []).map (fun d =>
        (⟨d.id, (d.properties.getD emptyDealProperties).withEmail (some em)⟩ : Deal)) = [d0] →
      handler token crm url = htmlResponse 200 (renderDealPortal
        ⟨d0.id, d0.properties.withEmailOrigin (some em)
          (some ((url.getParam "origin").getD ""))⟩)) ∧
    (2 ≤ ((batch.getD []).map (fun d =>
        (⟨d.id, (d.properties.getD emptyDealProperties).withEmail (some em)⟩ : Deal))).length →
      handler token crm url = htmlResponse 200
        (renderDealSelectionPage
          ((batch.getD []).map (fun d =>
            (⟨d.id, (d.properties.getD emptyDealProperties).withEmail (some em)⟩ : Deal)))
          url ((url.getParam "origin").getD ""))) := by
  have ht2 : truthyOpt (some em) = true := by rw [← hemail]; exact ht
  have hne : (dealIdsFromAssoc assoc).isEmpty = false := by
    cases hie : (dealIdsFromAssoc assoc).isEmpty
    · rfl
    · exact absurd (List.isEmpty_iff.mp hie) hids
  refine ⟨?_, ?_, ?_⟩
  · intro d hd
    rw [List.mem_map] at hd
    obtain ⟨raw, _, rfl⟩ := hd
    rfl
  · intro d0 hdeq
    have h1 : handlerRun token crm url =
        ([.contactSearch em, .assocDeals c.id, .batchDeals (dealIdsFromAssoc assoc)],
          .ok (htmlResponse 200 (renderDealPortal
            ⟨d0.id, d0.properties.withEmailOrigin (some em)
              (some ((url.getParam "origin").getD ""))⟩))) := by
      simp [handlerRun, getDealsForContact, htok, hdid, hemail, ht2, hfind, hassoc,
        hne, hbatch, hdeq]
    simp [handler, h1]
  · intro hlen
    simp only [List.length_map] at hlen
    have hb0 : ¬ (batch.getD [] = []) := by
      intro h0
      rw [h0] at hlen
      simp at hlen
    have hb1 : ¬ ((batch.getD []).length = 1) := by omega
    have h1 : handlerRun token crm url =
        ([.contactSearch em, .assocDeals c.id, .batchDeals (dealIdsFromAssoc assoc)],
          .ok (htmlResponse 200 (renderDealSelectionPage
            ((batch.getD []).map (fun d =>
              (⟨d.id, (d.properties.getD emptyDealProperties).withEmail (some em)⟩ : Deal)))
            url ((url.getParam "origin").getD "")))) := by
      simp [handlerRun, getDealsForContact, htok, hdid, hemail, ht2, hfind, hassoc,
        hne, hbatch, hb0, hb1]
    simp [handler, h1]

theorem claim_C8_witness :
    handlerRun (some "tok") crmWitness ⟨"https://example.test/x", []⟩ =
      ([], .ok (htmlResponse 400 (basicPage "Missing email" missingEmailBody))) :=
  ((claim_C8 (some "tok") crmWitness ⟨"https://example.test/x", []⟩
    (by decide) (by decide)).1 (by decide)).1

def crmTwoDeals : Crm :=
  ⟨fun _ => .ok (some [⟨"C1", none⟩]),
    fun _ => .ok (some [some "D1", some "D2"]),
    fun _ => .ok (some [⟨"D1", none⟩, ⟨"D2", none⟩]),
    fun _ => .ok none⟩

theorem claim_C9_witness :
    handler (some "tok") crmTwoDeals ⟨"https://example.test/x", [("email", "me@x.test")]⟩ =
      htmlResponse 200 (renderDealSelectionPage
        [⟨"D1", emptyDealProperties.withEmail (some "me@x.test")⟩,
          ⟨"D2", emptyDealProperties.withEmail (some "me@x.test")⟩]
        ⟨"https://example.test/x", [("email", "me@x.test")]⟩ "") := by
  have h := (claim_C9 (some "tok") crmTwoDeals
      ⟨"https://example.test/x", [("email", "me@x.test")]⟩
      "me@x.test" ⟨"C1", []⟩ (some [some "D1", some "D2"])
      (some [⟨"D1", none⟩, ⟨"D2", none⟩])
      (by decide) (by decide) rfl (by decide) rfl rfl (by decide) rfl).2.2
    (by decide)
  exact h

def esc1 (x : Char) : List Char := if x = '&' then "&amp;".data else [x]

def escChar (x : Char) : List Char :=
  if x = '&' then "&amp;".data
  else if x = '<' then "&lt;".data
  else if x = '>' then "&gt;".data
  else if x = '"' then "&quot;".data
  else [x]

theorem replaceAllChar_append (c : Char) (r : List Char) (a b : List Char) :
    replaceAllChar c r (a ++ b) = replaceAllChar c r a ++ replaceAllChar c r b := by
  simp [replaceAllChar, List.flatMap_append]

theorem replaceAllChar_flatMap (c : Char) (r : List Char) (f : Char → List Char)
    (l : List Char) :
    replaceAllChar c r (l.flatMap f) = l.flatMap (fun x => replaceAllChar c r (f x)) := by
  induction l with
  | nil => rfl
  | cons x l ih => rw [List.flatMap_cons, List.flatMap_cons, replaceAllChar_append, ih]

theorem escStep (x : Char) :
    replaceAllChar '"' "&quot;".data
      (replaceAllChar '>' "&gt;".data
        (replaceAllChar '<' "&lt;".data (esc1 x))) = escChar x := by
  by_cases h1 : x = '&'
  · subst h1; rfl
  · by_cases h2 : x = '<'
    · subst h2; rfl
    · by_cases h3 : x = '>'
      · subst h3; rfl
      · by_cases h4 : x = '"'
        · subst h4; rfl
        · simp [esc1, escChar, replaceAllChar, h1, h2, h3, h4]

theorem escapeHtml_data (v : Option String) :
    (escapeHtml v).data = (v.getD "").data.flatMap escChar := by
  show (replaceAllChar '"' "&quot;".data
      (replaceAllChar '>' "&gt;".data
        (replaceAllChar '<' "&lt;".data
          (replaceAllChar '&' "&amp;".data (v.getD "").data)))) = _
  have h1 : replaceAllChar '&' "&amp;".data (v.getD "").data =
      (v.getD "").data.flatMap esc1 := rfl
  rw [h1, replaceAllChar_flatMap, replaceAllChar_flatMap, replaceAllChar_flatMap]
  congr 1
  funext x
  exact escStep x

def htmlSafe : List Char → Bool
  | [] => true
  | c :: l =>
    if c = '&' then
      match l with
      | 'a' :: 'm' :: 'p' :: ';' :: t => htmlSafe t
      | 'l' :: 't' :: ';' :: t => htmlSafe t
      | 'g' :: 't' :: ';' :: t => htmlSafe t
      | 'q' :: 'u' :: 'o' :: 't' :: ';' :: t => htmlSafe t
      | _ => false
    else if c = '<' then false
    else if c = '>' then false
    else if c = '"' then false
    else htmlSafe l

theorem htmlSafe_cons_other (c : Char) (l : List Char)
    (h1 : c ≠ '&') (h2 : c ≠ '<') (h3 : c ≠ '>') (h4 : c ≠ '"') :
    htmlSafe (c :: l) = htmlSafe l := by
  conv_lhs => rw [htmlSafe.eq_def]
  simp [h1, h2, h3, h4]

theorem htmlSafe_flatMap (l : List Char) : htmlSafe (l.flatMap escChar) = true := by
  induction l with
  | nil => rfl
  | cons c l ih =>
    rw [List.flatMap_cons]
    by_cases h1 : c = '&'
    · subst h1
      exact ih
    · by_cases h2 : c = '<'
      · subst h2
        exact ih
      · by_cases h3 : c = '>'
        · subst h3
          exact ih
        · by_cases h4 : c = '"'
          · subst h4
            exact ih
          · have he : escChar c = [c] := by simp [escChar, h1, h2, h3, h4]
            rw [he]
            show htmlSafe (c :: l.flatMap escChar) = true
            rw [htmlSafe_cons_other c _ h1 h2 h3 h4]
            exact ih

theorem escChar_no_raw (x : Char) :
    '<' ∉ escChar x ∧ '>' ∉ escChar x ∧ '"' ∉ escChar x := by
  unfold escChar
  split_ifs with h1 h2 h3 h4
  · exact ⟨by decide, by decide, by decide⟩
  · exact ⟨by decide, by decide, by decide⟩
  · exact ⟨by decide, by decide, by decide⟩
  · exact ⟨by decide, by decide, by decide⟩
  · exact ⟨fun hm => h2 (List.mem_singleton.mp hm).symm,
      fun hm => h3 (List.mem_singleton.mp hm).symm,
      fun hm => h4 (List.mem_singleton.mp hm).symm⟩

theorem escapeHtml_no_raw (v : Option String) :
    '<' ∉ (escapeHtml v).data ∧ '>' ∉ (escapeHtml v).data ∧ '"' ∉ (escapeHtml v).data := by
  rw [escapeHtml_data]
  refine ⟨fun hm => ?_, fun hm => ?_, fun hm => ?_⟩
  · obtain ⟨x, _, hx⟩ := List.mem_flatMap.mp hm
    exact (escChar_no_raw x).1 hx
  · obtain ⟨x, _, hx⟩ := List.mem_flatMap.mp hm
    exact (escChar_no_raw x).2.1 hx
  · obtain ⟨x, _, hx⟩ := List.mem_flatMap.mp hm
    exact (escChar_no_raw x).2.2 hx

/-- C10: for every input value, `escapeHtml` returns a string containing no
raw `<`, `>` or `"` characters and no `&` other than as the start of an
inserted entity (checked by `htmlSafe`); null/undefined/empty inputs yield
the empty string, and every occurrence of `&`, `<`, `>`, `"` in the input
is replaced by its HTML entity (the single-pass `escChar` expansion), so
the caller-supplied email echoed into the no-account and no-programs pages
cannot introduce markup. -/
theorem claim_C10 :
    (∀ v : Option String, htmlSafe (escapeHtml v).data = true) ∧
    (∀ v : Option String,
      '<' ∉ (escapeHtml v).data ∧ '>' ∉ (escapeHtml v).data ∧ '"' ∉ (escapeHtml v).data) ∧
    escapeHtml none = "" ∧ escapeHtml (some "") = "" ∧
    (∀ v : Option String, (escapeHtml v).data = (v.getD "").data.flatMap escChar) := by
  refine ⟨?_, escapeHtml_no_raw, rfl, rfl, escapeHtml_data⟩
  intro v
  rw [escapeHtml_data]
  exact htmlSafe_flatMap _
